import Mathlib

/-!
Shallow embedding of the two algorithmic modules of the repository:
`homedepot/downsample_fragment_file.py` (fragment counting, multiset
expansion, sampling, recollapse, target resolution) and
`homedepot/gtf_to_bed.py` (strand/anchor-aware coordinate window
calculation, `process_records`).

Conventions: a fragment file is a list of lines, each either a comment
(skipped by every reader, matching `line.startswith("#")`) or a parsed
record whose first four tab-separated fields are strings and whose fifth
field is the integer count.  Random sampling without replacement is
modelled by quantifying over every list whose length is the requested
sample size and whose per-element multiplicity is bounded by the
multiplicity in the population, which is exactly the guarantee of
`random.sample`.  A missing dict key in Python raises `KeyError`, modelled
by `Except.error` carrying the missing key.
-/

/-- One parsed, non-comment line of a fragment file: the four key fields
`parts[:4]` (kept as strings, as the source does) and the count
`int(parts[4])`. -/
structure FragmentRecord where
  chrom : String
  start : String
  «end» : String
  barcode : String
  count : Nat
deriving DecidableEq, Repr

/-- The fragment key fields of a record, in file order: `parts[:4]`. -/
def keyFields (r : FragmentRecord) : List String :=
  [r.chrom, r.start, r.«end», r.barcode]

/-- A line of a fragment file: a `#` comment or a record. -/
inductive FragLine where
  | comment (text : String)
  | record (r : FragmentRecord)
deriving DecidableEq, Repr

/-- `count_fragments`: total fragment multiplicity of a file, summing the
count column and skipping comment lines (source lines 59-64). -/
def count_fragments (file : List FragLine) : Nat :=
  file.foldl
    (fun total l =>
      match l with
      | FragLine.comment _ => total
      | FragLine.record r => total + r.count)
    0

/-- The expansion loop of `downsample_file` (source lines 84-92): for each
non-comment line it executes `fragments.extend(tuple(parts[:4]) * count)`.
Multiplying the 4-tuple by `count` yields the four field strings repeated
`count` times, and `extend` appends them one string at a time, so the
resulting population is a flat list of field strings. -/
def readFragments (file : List FragLine) : List String :=
  file.foldl
    (fun acc l =>
      match l with
      | FragLine.comment _ => acc
      | FragLine.record r => acc ++ (List.replicate r.count (keyFields r)).flatten)
    []

/-- The guarantee of `random.sample(population, N)` for its result `s`:
`s` has length `N` and is a sub-multiset of the population (each element
is drawn at most as often as it occurs in the population). -/
def isSample (population : List String) (N : Nat) (s : List String) : Prop :=
  s.length = N ∧ ∀ x ∈ s, s.count x ≤ population.count x

instance (population : List String) (N : Nat) (s : List String) :
    Decidable (isSample population N s) := by
  unfold isSample; infer_instance

/-- `collections.Counter(sampled).items()` followed by
`writer.writerow(list(frag) + [count])` (source lines 97-104): one output
row per distinct sampled element `frag`, whose written fields are the
characters of `frag` (the Python `list` of a string) followed by the
count of `frag` in the sample. -/
def outputRows (s : List String) : List (List String × Nat) :=
  s.dedup.map (fun frag => (frag.data.map Char.toString, s.count frag))

/-- Sum of the `new_count` column over a list of output rows. -/
def sumCounts (rows : List (List String × Nat)) : Nat :=
  (rows.map Prod.snd).sum

/-- Total count attributed, in a list of output rows, to the rows whose
key fields are exactly `kf`. -/
def keyOutCount (rows : List (List String × Nat)) (kf : List String) : Nat :=
  (rows.filter (fun rc => rc.1 = kf)).foldl (fun a rc => a + rc.2) 0

/-- Total input multiplicity of the fragment key with fields `kf` in a
fragment file: the sum of the counts of the records keyed by `kf`. -/
def inputKeyCount (file : List FragLine) (kf : List String) : Nat :=
  file.foldl
    (fun a l =>
      match l with
      | FragLine.comment _ => a
      | FragLine.record r => if keyFields r = kf then a + r.count else a)
    0

/-- Whether `random.sample(population, N)` succeeds: it raises
`ValueError` exactly when `N` exceeds the population size (source line
96 samples from the expanded list). -/
def sampling_ok (file : List FragLine) (N : Nat) : Prop :=
  N ≤ (readFragments file).length

instance (file : List FragLine) (N : Nat) : Decidable (sampling_ok file N) := by
  unfold sampling_ok; infer_instance

/-- `N = min(counts)` in `main` (source line 131): the Python `min` of a
list, failing on an empty list. -/
def resolve_target : List Nat → Option Nat
  | [] => none
  | c :: cs => some (cs.foldl min c)

/-- The single-record file of the downsampling failing input:
`(chr1, 100, 200, AAAA, 3)`. -/
def fileA1 : List FragLine :=
  [FragLine.record ⟨"chr1", "100", "200", "AAAA", 3⟩]

/-- The fragment file of Scenario A: records `(chr1,100,200,AAAA,3)` and
`(chr1,300,400,BBBB,2)`. -/
def fileA : List FragLine :=
  [FragLine.record ⟨"chr1", "100", "200", "AAAA", 3⟩,
   FragLine.record ⟨"chr1", "300", "400", "BBBB", 2⟩]

/-- First input file of Scenario B: a comment line plus records whose
counts sum to 10. -/
def fileB1 : List FragLine :=
  [FragLine.comment "# header",
   FragLine.record ⟨"chr1", "0", "10", "AAAA", 4⟩,
   FragLine.record ⟨"chr1", "5", "15", "CCCC", 6⟩]

/-- Second input file of Scenario B: a single record of count 7. -/
def fileB2 : List FragLine :=
  [FragLine.record ⟨"chr2", "0", "10", "BBBB", 7⟩]

/-- The fields of a GTF/GFF row that `process_records` reads:
`row["chrom"]`, `row["start"]`, `row["end"]`, `row["strand"]`. -/
structure GtfRow where
  chrom : String
  start : Int
  «end» : Int
  strand : String
deriving DecidableEq, Repr

/-- `process_records` (source lines 184-258): computes the new start and
end coordinates of a window around a feature, branching on strand,
anchors and distance signs exactly as the source does.  The dict lookup
`chrom_df[row["chrom"]]` is modelled by an association-list lookup; a
missing chromosome is the `Except.error` case, carrying the missing key
in the way the Python `KeyError` does. -/
def process_records (row : GtfRow) (updist : Int) (upanchor : String)
    (downdist : Int) (downanchor : String) (chrom_df : List (String × Int)) :
    Except String (Int × Int) :=
  match chrom_df.lookup row.chrom with
  | none => Except.error row.chrom
  | some max_end =>
    let min_end : Int := 0
    if row.strand = "." ∨ row.strand = "+" then
      let start :=
        if upanchor = "start" then
          if updist > 0 then max min_end (row.start - updist)
          else min (row.start - updist) max_end
        else
          if updist > 0 then max min_end (row.«end» - updist)
          else min (row.«end» - updist) max_end
      let e :=
        if downanchor = "start" then
          if downdist > 0 then min (row.start + downdist) max_end
          else max min_end (row.start + downdist)
        else
          if downdist > 0 then min (row.«end» + downdist) max_end
          else max max_end (row.«end» + downdist)
      Except.ok (start, e)
    else
      let e :=
        if upanchor = "start" then
          if updist > 0 then min (row.«end» + updist) max_end
          else max min_end (row.«end» + updist)
        else
          if updist > 0 then min (row.start + updist) max_end
          else max min_end (row.start + updist)
      let start :=
        if downanchor = "start" then
          if downdist > 0 then max min_end (row.«end» - downdist)
          else min (row.«end» - downdist) max_end
        else
          if downdist > 0 then max min_end (row.start - downdist)
          else min (row.start - downdist) max_end
      Except.ok (start, e)

/-- Concrete downsampled-output key made of the characters of `chr1`,
as written by `writer.writerow(list(frag) + [count])` when the collapsed
counter key `frag` is the bare string `chr1`. -/
def charKeyChr1 : List String := ["c", "h", "r", "1"]

/-- C1: the expansion step does NOT build the multiset of fragment keys.
For the single record `(chr1,100,200,AAAA,3)`, `fragments.extend(tuple(parts[:4]) * count)`
produces the twelve field strings below — the four fields flattened and
repeated three times — so the expanded list has size 12, not the sum of
counts 3, and its elements are field strings rather than 4-tuple keys. -/
theorem c1_expansion_flattens_keys :
    readFragments fileA1 =
      ["chr1", "100", "200", "AAAA", "chr1", "100", "200", "AAAA",
       "chr1", "100", "200", "AAAA"] ∧
    count_fragments fileA1 = 3 ∧
    (readFragments fileA1).length ≠ count_fragments fileA1 := by
  decide

/-- C2: the sub-multiset property fails on the code.  For the input file
with the single record `(chr1,100,200,AAAA,3)` and `N = 3`, drawing the
string `chr1` three times is a legitimate sample of the expanded
population, and the written output then contains a row whose fragment
key is `(c, h, r, 1)` with count 3, a key whose input multiplicity is 0. -/
theorem c2_submultiset_violated :
    isSample (readFragments fileA1) 3 ["chr1", "chr1", "chr1"] ∧
    keyOutCount (outputRows ["chr1", "chr1", "chr1"]) charKeyChr1 = 3 ∧
    inputKeyCount fileA1 charKeyChr1 = 0 := by
  decide

/-- C4: sampling does not fail when `N` exceeds the total multiplicity.
For the file with the single record `(chr1,100,200,AAAA,3)` the total
multiplicity is 3, yet `random.sample` succeeds for `N = 5` because the
expanded population holds 12 field strings, so no error is raised where
the claim requires `InsufficientDataError`. -/
theorem c4_sampling_accepts_N_above_multiplicity :
    count_fragments fileA1 < 5 ∧ sampling_ok fileA1 5 := by
  decide

/-- C9: invoked on a feature whose chromosome is absent from the size
table, `process_records` fails, returning the error case that models the
Python `KeyError` (a subclass of `LookupError`) raised by
`chrom_df[row["chrom"]]`, for every window spec. -/
theorem c9_unknown_chromosome_error (row : GtfRow) (updist : Int)
    (upanchor : String) (downdist : Int) (downanchor : String)
    (chrom_df : List (String × Int))
    (h : chrom_df.lookup row.chrom = none) :
    process_records row updist upanchor downdist downanchor chrom_df =
      Except.error row.chrom := by
  simp [process_records, h]

/-- Witness for C9: a feature on `chrX` against an empty size table. -/
theorem c9_unknown_chromosome_error_witness :
    process_records ⟨"chrX", 5, 9, "+"⟩ 2000 "start" 2000 "start" [] =
      Except.error "chrX" :=
  c9_unknown_chromosome_error ⟨"chrX", 5, 9, "+"⟩ 2000 "start" 2000 "start" [] rfl

/-- C10: no strand validation.  Any strand other than `+` and `.` —
including `*` and the empty string — takes the negative-strand branch:
the output end comes from the upstream rule applied to the mirrored
anchor, the output start from the downstream rule, and the call
succeeds. -/
theorem c10_unrecognized_strand_negative_branch (row : GtfRow)
    (updist : Int) (upanchor : String) (downdist : Int) (downanchor : String)
    (chrom_df : List (String × Int)) (L : Int)
    (h1 : row.strand ≠ "+") (h2 : row.strand ≠ ".")
    (hL : chrom_df.lookup row.chrom = some L) :
    process_records row updist upanchor downdist downanchor chrom_df =
      Except.ok
        ((if downanchor = "start" then
            if downdist > 0 then max 0 (row.«end» - downdist)
            else min (row.«end» - downdist) L
          else
            if downdist > 0 then max 0 (row.start - downdist)
            else min (row.start - downdist) L),
         (if upanchor = "start" then
            if updist > 0 then min (row.«end» + updist) L
            else max 0 (row.«end» + updist)
          else
            if updist > 0 then min (row.start + updist) L
            else max 0 (row.start + updist))) := by
  have hcond : ¬(row.strand = "." ∨ row.strand = "+") := by
    intro h
    rcases h with h | h
    · exact h2 h
    · exact h1 h
  simp [process_records, hL, hcond]

/-- Witness for C10: a feature with the invalid strand `*` is processed
through the negative-strand branch without failing. -/
theorem c10_unrecognized_strand_negative_branch_witness :
    process_records ⟨"chr1", 1000, 2000, "*"⟩ 500 "start" 500 "start"
      [("chr1", 5000)] = Except.ok (1500, 2500) := by
  have h := c10_unrecognized_strand_negative_branch ⟨"chr1", 1000, 2000, "*"⟩
    500 "start" 500 "start" [("chr1", 5000)] 5000 (by decide) (by decide) rfl
  simpa using h

/-- Counterexample to C5 as stated.  For the feature
`(chr1, 10, 50, +)` with chromosome length 1000, downstream anchor `end`
and downstream distance `-5`, the code computes the downstream edge
`max(1000, 45) = 1000`, while the claimed rule `max(0, anchor + distance)`
gives 45. -/
theorem c5_downstream_end_clamp_counterexample :
    process_records ⟨"chr1", 10, 50, "+"⟩ 0 "start" (-5) "end"
      [("chr1", 1000)] = Except.ok (10, 1000) ∧
    max (0 : Int) (50 + (-5)) = 45 ∧ (1000 : Int) ≠ 45 := by
  refine ⟨rfl, by decide, by decide⟩

/-- C5, amended: for every feature on strand `+` or `.`, the downstream
edge equals `min(anchor + distance, chrom_length)` when
`downstream_distance > 0`; when `downstream_distance ≤ 0` it equals
`max(0, anchor + distance)` for `downstream_anchor = start` but
`max(chrom_length, anchor + distance)` for `downstream_anchor = end`. -/
theorem c5_downstream_edge_amended (row : GtfRow) (updist : Int)
    (upanchor : String) (downdist : Int) (downanchor : String)
    (chrom_df : List (String × Int)) (L : Int)
    (hstrand : row.strand = "." ∨ row.strand = "+")
    (hL : chrom_df.lookup row.chrom = some L) :
    ∃ s, process_records row updist upanchor downdist downanchor chrom_df =
      Except.ok (s,
        if downanchor = "start" then
          if downdist > 0 then min (row.start + downdist) L
          else max 0 (row.start + downdist)
        else
          if downdist > 0 then min (row.«end» + downdist) L
          else max L (row.«end» + downdist)) := by
  refine ⟨if upanchor = "start" then
      if updist > 0 then max 0 (row.start - updist)
      else min (row.start - updist) L
    else
      if updist > 0 then max 0 (row.«end» - updist)
      else min (row.«end» - updist) L, ?_⟩
  rcases hstrand with h | h <;> simp [process_records, hL, h]

/-- Witness for the amended C5: the counterexample feature, whose
downstream edge is clamped up to the chromosome length 1000. -/
theorem c5_downstream_edge_amended_witness :
    ∃ s, process_records ⟨"chr1", 10, 50, "+"⟩ 0 "start" (-5) "end"
      [("chr1", 1000)] = Except.ok (s, 1000) := by
  obtain ⟨s, hs⟩ := c5_downstream_edge_amended ⟨"chr1", 10, 50, "+"⟩ 0 "start"
    (-5) "end" [("chr1", 1000)] 1000 (Or.inr rfl) rfl
  exact ⟨s, by simpa using hs⟩

/-- Counterexample to C6 as stated.  In the negative-strand,
downstream-anchor-at-`end`, negative-distance branch the code computes
the downstream edge (the output start) as `min(start - distance, chrom_length)`:
for the feature `(chr1, 10, 50, -)` with chromosome length 1000 and
downstream distance `-5` it yields 15, which is below the chromosome
length, refuting that the edge is never below `chrom_length`. -/
theorem c6_negative_strand_counterexample :
    process_records ⟨"chr1", 10, 50, "-"⟩ 0 "start" (-5) "end"
      [("chr1", 1000)] = Except.ok (15, 50) ∧ (15 : Int) < 1000 := by
  refine ⟨rfl, by decide⟩

/-- C6, amended: the `max`-with-`chrom_length` clamp sits in the
POSITIVE/dot-strand, downstream-anchor-at-`end`, non-positive-distance
branch, whose computed edge `max(chrom_length, end + distance)` is never
below `chrom_length`, whereas the analogous downstream-anchor-at-`start`
branch of the same strand clamps at 0. -/
theorem c6_positive_strand_end_clamp (row : GtfRow) (updist : Int)
    (upanchor : String) (downdist : Int) (chrom_df : List (String × Int))
    (L : Int)
    (hstrand : row.strand = "." ∨ row.strand = "+")
    (hdown : ¬downdist > 0)
    (hL : chrom_df.lookup row.chrom = some L) :
    (∃ s e, process_records row updist upanchor downdist "end" chrom_df =
        Except.ok (s, e) ∧ e = max L (row.«end» + downdist) ∧ L ≤ e) ∧
    (∃ s e, process_records row updist upanchor downdist "start" chrom_df =
        Except.ok (s, e) ∧ e = max 0 (row.start + downdist)) := by
  constructor
  · refine ⟨if upanchor = "start" then
        if updist > 0 then max 0 (row.start - updist)
        else min (row.start - updist) L
      else
        if updist > 0 then max 0 (row.«end» - updist)
        else min (row.«end» - updist) L,
      max L (row.«end» + downdist), ?_, rfl, le_max_left _ _⟩
    rcases hstrand with h | h <;> simp [process_records, hL, h, hdown]
  · refine ⟨if upanchor = "start" then
        if updist > 0 then max 0 (row.start - updist)
        else min (row.start - updist) L
      else
        if updist > 0 then max 0 (row.«end» - updist)
        else min (row.«end» - updist) L,
      max 0 (row.start + downdist), ?_, rfl⟩
    rcases hstrand with h | h <;> simp [process_records, hL, h, hdown]

/-- Witness for the amended C6: the positive-strand feature
`(chr1, 10, 50, +)` with chromosome length 1000 and downstream distance
`-5` anchored at `end`, whose downstream edge is `max(1000, 45) = 1000`,
not below the chromosome length. -/
theorem c6_positive_strand_end_clamp_witness :
    ∃ s e, process_records ⟨"chr1", 10, 50, "+"⟩ 0 "start" (-5) "end"
        [("chr1", 1000)] = Except.ok (s, e) ∧
      e = max 1000 (50 + (-5)) ∧ (1000 : Int) ≤ e :=
  (c6_positive_strand_end_clamp ⟨"chr1", 10, 50, "+"⟩ 0 "start" (-5)
    [("chr1", 1000)] 1000 (Or.inr rfl) (by decide) rfl).1

/-- C8: for every window spec and every feature on strand `.` or `+`, if
`upstream_distance > 0` then the new start is exactly
`max(0, anchor - upstream_distance)`, where the anchor is the feature
start or end according to `upstream_anchor`. -/
theorem c8_upstream_start_clamped (row : GtfRow) (updist : Int)
    (upanchor : String) (downdist : Int) (downanchor : String)
    (chrom_df : List (String × Int)) (L : Int)
    (hstrand : row.strand = "." ∨ row.strand = "+")
    (hup : updist > 0)
    (hanchor : upanchor = "start" ∨ upanchor = "end")
    (hL : chrom_df.lookup row.chrom = some L) :
    ∃ e, process_records row updist upanchor downdist downanchor chrom_df =
      Except.ok
        (max 0 ((if upanchor = "start" then row.start else row.«end») - updist),
         e) := by
  refine ⟨if downanchor = "start" then
      if downdist > 0 then min (row.start + downdist) L
      else max 0 (row.start + downdist)
    else
      if downdist > 0 then min (row.«end» + downdist) L
      else max L (row.«end» + downdist), ?_⟩
  rcases hstrand with h | h <;>
    rcases hanchor with ha | ha <;>
      simp [process_records, hL, h, ha, hup]

/-- Witness for C8: a feature whose anchor sits at position 0 with
`upstream_distance = 5` yields a new start of exactly 0, never a
negative coordinate. -/
theorem c8_upstream_start_clamped_witness :
    ∃ e, process_records ⟨"chr1", 0, 50, "+"⟩ 5 "start" 0 "start"
      [("chr1", 1000)] = Except.ok (0, e) := by
  obtain ⟨e, he⟩ := c8_upstream_start_clamped ⟨"chr1", 0, 50, "+"⟩ 5 "start" 0
    "start" [("chr1", 1000)] 1000 (Or.inr rfl) (by decide) (Or.inl rfl) rfl
  exact ⟨e, by simpa using he⟩

/-- C3: the Scenario A clause fails on the code.  For the file with
records `(chr1,100,200,AAAA,3)` and `(chr1,300,400,BBBB,2)` and `N = 3`,
drawing the string `chr1` three times is a legitimate sample of the
expanded population; the output counts do sum to 3, but the written
output then holds the fragment key `(c, h, r, 1)` with count 3, while
the input multiplicity of that key is 0 — so its count is not within
`[0, 3]` intersected with `[0, its original count]`. -/
theorem c3_scenarioA_per_key_bound_fails :
    3 ≤ count_fragments fileA ∧
    isSample (readFragments fileA) 3 ["chr1", "chr1", "chr1"] ∧
    sumCounts (outputRows ["chr1", "chr1", "chr1"]) = 3 ∧
    keyOutCount (outputRows ["chr1", "chr1", "chr1"]) charKeyChr1 = 3 ∧
    inputKeyCount fileA charKeyChr1 = 0 := by
  decide

/-- Folding `min` over a list never rises above the initial value. -/
theorem foldlMin_le_init (cs : List Nat) (c : Nat) : cs.foldl min c ≤ c := by
  induction cs generalizing c with
  | nil => exact Nat.le_refl c
  | cons a as ih => exact Nat.le_trans (ih (min c a)) (Nat.min_le_left c a)

/-- Folding `min` over a list yields the initial value or a member. -/
theorem foldlMin_mem (cs : List Nat) (c : Nat) :
    cs.foldl min c = c ∨ cs.foldl min c ∈ cs := by
  induction cs generalizing c with
  | nil => exact Or.inl rfl
  | cons a as ih =>
    simp only [List.foldl_cons]
    rcases ih (min c a) with h | h
    · rcases min_choice c a with h2 | h2
      · exact Or.inl (h.trans h2)
      · right
        rw [h, h2]
        exact List.mem_cons_self a as
    · exact Or.inr (List.mem_cons_of_mem a h)

/-- Folding `min` over a list is at most every member. -/
theorem foldlMin_le_of_mem (cs : List Nat) (c b : Nat) (hb : b ∈ cs) :
    cs.foldl min c ≤ b := by
  induction cs generalizing c with
  | nil => cases hb
  | cons a as ih =>
    rcases List.mem_cons.mp hb with rfl | h
    · exact Nat.le_trans (foldlMin_le_init as (min c b)) (Nat.min_le_right c b)
    · exact ih (min c a) h

/-- C7: for every non-empty collection of input files, the resolved
target is `some N` where `N` is the minimum of the per-file totals (it is
one of the totals and a lower bound of all of them, each total summing
the count column and ignoring comment lines); in particular the two
Scenario B files, with totals 10 and 7, resolve to 7. -/
theorem c7_target_is_min :
    (∀ files : List (List FragLine), files ≠ [] →
      ∃ N, resolve_target (files.map count_fragments) = some N ∧
        N ∈ files.map count_fragments ∧
        ∀ c ∈ files.map count_fragments, N ≤ c) ∧
    resolve_target (List.map count_fragments [fileB1, fileB2]) = some 7 := by
  constructor
  · intro files hne
    match files with
    | f :: fs =>
      refine ⟨(fs.map count_fragments).foldl min (count_fragments f), rfl, ?_, ?_⟩
      · rcases foldlMin_mem (fs.map count_fragments) (count_fragments f) with h | h
        · rw [List.map_cons, h]
          exact List.mem_cons_self _ _
        · rw [List.map_cons]
          exact List.mem_cons_of_mem _ h
      · intro c hc
        rw [List.map_cons] at hc
        rcases List.mem_cons.mp hc with rfl | h
        · exact foldlMin_le_init _ _
        · exact foldlMin_le_of_mem _ _ _ h
  · decide

/-- Witness for C7: applying the minimum characterization to the two
Scenario B files. -/
theorem c7_target_is_min_witness :
    ∃ N, resolve_target (List.map count_fragments [fileB1, fileB2]) = some N ∧
      N ∈ List.map count_fragments [fileB1, fileB2] ∧
      ∀ c ∈ List.map count_fragments [fileB1, fileB2], N ≤ c :=
  c7_target_is_min.1 [fileB1, fileB2] (by decide)
